import Mathlib

/-!
Shallow embedding of the `paginate` package (`src/paginate/__init__.py`):
the page-boundary arithmetic of `Page.__init__`, the range-collapse logic of
`Page._range`, the short-circuit and link generation of `Page.pager` /
`Page._pagerlink`, and the collection-access behaviour of `Page.__init__`.
Python integers are unbounded, so they are modelled by `Int`; Python's `//`
is floor division, modelled by `Int.fdiv`; Python `None` is `Option.none`.
-/

/-- The `page` argument of `Page.__init__` as seen by `int(page)` (line 258):
either a value that `int()` converts to an integer, or one on which `int()`
raises `ValueError` or `TypeError`. -/
inductive PageInput where
  | num (n : Int)
  | nonNum
deriving DecidableEq

/-- Lines 257-260 of `Page.__init__`: `self.page = int(page)`, with a
non-numeric argument defaulting to `1` in the
`except (ValueError, TypeError)` handler. -/
def parsePage : PageInput → Int
  | .num n => n
  | .nonNum => 1

/-- The attributes computed by `Page.__init__` (lines 255-321), with the
collection abstracted to its length `item_count`; the collection-access
behaviour itself is modelled separately by `pageInitColl`. Attributes that
the source sets to Python `None` are `Option.none` here. -/
structure PageRec where
  page : Int
  items_per_page : Int
  item_count : Int
  first_page : Option Int
  last_page : Option Int
  page_count : Int
  first_item : Option Int
  last_item : Option Int
  previous_page : Option Int
  next_page : Option Int
deriving DecidableEq

/-- The `item_count > 0` branch of `Page.__init__` (lines 272-310):
`page_count = (item_count - 1) // items_per_page + 1`,
`last_page = first_page + page_count - 1`, the requested page clamped into
`[first_page, last_page]`, then `first_item`/`last_item` and the
previous/next links. `page0` is the already-parsed requested page. -/
def pageInitPos (page0 items_per_page item_count : Int) : PageRec :=
  let first_page : Int := 1
  let page_count : Int := (item_count - 1).fdiv items_per_page + 1
  let last_page : Int := first_page + page_count - 1
  let page1 : Int :=
    if last_page < page0 then last_page
    else if page0 < first_page then first_page
    else page0
  let first_item : Int := (page1 - 1) * items_per_page + 1
  let last_item : Int := min (first_item + items_per_page - 1) item_count
  { page := page1
  , items_per_page := items_per_page
  , item_count := item_count
  , first_page := some first_page
  , last_page := some last_page
  , page_count := page_count
  , first_item := some first_item
  , last_item := some last_item
  , previous_page := if first_page < page1 then some (page1 - 1) else none
  , next_page := if page1 < last_page then some (page1 + 1) else none }

/-- The `item_count <= 0` branch of `Page.__init__` (lines 312-321): all
boundary attributes are `None`, `page_count` is `0`, and `self.page` keeps
the value parsed at lines 257-260. -/
def pageInitZero (page0 items_per_page item_count : Int) : PageRec :=
  { page := page0
  , items_per_page := items_per_page
  , item_count := item_count
  , first_page := none
  , last_page := none
  , page_count := 0
  , first_item := none
  , last_item := none
  , previous_page := none
  , next_page := none }

/-- Model of `Page.__init__` (lines 255-321) with the collection
abstracted to its length: parse the requested page, then branch on `item_count > 0`. -/
def pageInit (page : PageInput) (items_per_page item_count : Int) : PageRec :=
  if 0 < item_count then pageInitPos (parsePage page) items_per_page item_count
  else pageInitZero (parsePage page) items_per_page item_count

/-- Integer ceiling division, the spec's `ceil(item_count / items_per_page)`
for a positive divisor. -/
def ceilDiv (a b : Int) : Int := (a + b - 1) / b

/-- Characterisation of the source's `page_count` formula
`(item_count - 1) // items_per_page + 1`: it is at least `1`, and it is the
unique integer `pc` with `(pc - 1) * ipp < ic ≤ pc * ipp`. -/
theorem pageCount_char (ipp ic : Int) (hipp : 0 < ipp) (hic : 0 < ic) :
    1 ≤ (ic - 1).fdiv ipp + 1 ∧
    ((ic - 1).fdiv ipp + 1 - 1) * ipp < ic ∧
    ic ≤ ((ic - 1).fdiv ipp + 1) * ipp := by
  rw [Int.fdiv_eq_ediv _ hipp.le]
  have h1 := Int.ediv_add_emod (ic - 1) ipp
  have h2 := Int.emod_nonneg (ic - 1) (ne_of_gt hipp)
  have h3 := Int.emod_lt_of_pos (ic - 1) hipp
  have hq : 0 ≤ (ic - 1) / ipp := Int.ediv_nonneg (by omega) hipp.le
  set q := (ic - 1) / ipp with hqdef
  have e1 : (q + 1 - 1) * ipp = ipp * q := by ring
  have e2 : (q + 1) * ipp = ipp * q + ipp := by ring
  refine ⟨by omega, ?_, ?_⟩
  · rw [e1]; omega
  · rw [e2]; omega

/-- The source's `page_count` equals ceiling division of `item_count` by
`items_per_page`. -/
theorem pageCount_eq_ceilDiv (ipp ic : Int) (hipp : 0 < ipp) :
    (ic - 1).fdiv ipp + 1 = ceilDiv ic ipp := by
  rw [Int.fdiv_eq_ediv _ hipp.le]
  unfold ceilDiv
  have h : ic + ipp - 1 = (ic - 1) + 1 * ipp := by ring
  rw [h, Int.add_mul_ediv_right _ _ (ne_of_gt hipp)]

/-- C1: constructing the page state with `item_count > 0` clamps the
requested page into `[first_page, last_page]`: a value above `last_page`
becomes `last_page`, a value below `first_page` becomes `first_page`,
an in-range value is kept, a non-numeric value parses to `1`, and no error
is raised (the constructor is a total function). -/
theorem C1_page_clamped (r : PageInput) (ipp ic : Int) (hic : 0 < ic)
    (hipp : 0 < ipp) :
    ∃ lp, (pageInit r ipp ic).last_page = some lp ∧
      (pageInit r ipp ic).first_page = some 1 ∧
      1 ≤ (pageInit r ipp ic).page ∧ (pageInit r ipp ic).page ≤ lp ∧
      (lp < parsePage r → (pageInit r ipp ic).page = lp) ∧
      (parsePage r < 1 → (pageInit r ipp ic).page = 1) ∧
      (1 ≤ parsePage r → parsePage r ≤ lp → (pageInit r ipp ic).page = parsePage r) ∧
      parsePage PageInput.nonNum = 1 := by
  have hc1 := (pageCount_char ipp ic hipp hic).1
  unfold pageInit
  rw [if_pos hic]
  unfold pageInitPos
  simp only
  set p0 := parsePage r with hp0
  set pc := (ic - 1).fdiv ipp + 1 with hpc
  refine ⟨1 + pc - 1, ?_, ?_, ?_, ?_, ?_, ?_, ?_, ?_⟩ <;>
    first
    | rfl
    | trivial
    | (intros; first | omega | (split_ifs <;> omega))

/-- C1 witness: instantiation at a 109-item collection, 15 items per page,
requested page 100 (clamped to the last page, 8). -/
theorem C1_page_clamped_witness :
    ∃ lp, (pageInit (PageInput.num 100) 15 109).last_page = some lp ∧
      (pageInit (PageInput.num 100) 15 109).first_page = some 1 ∧
      1 ≤ (pageInit (PageInput.num 100) 15 109).page ∧
      (pageInit (PageInput.num 100) 15 109).page ≤ lp ∧
      (lp < parsePage (PageInput.num 100) →
        (pageInit (PageInput.num 100) 15 109).page = lp) ∧
      (parsePage (PageInput.num 100) < 1 →
        (pageInit (PageInput.num 100) 15 109).page = 1) ∧
      (1 ≤ parsePage (PageInput.num 100) → parsePage (PageInput.num 100) ≤ lp →
        (pageInit (PageInput.num 100) 15 109).page = parsePage (PageInput.num 100)) ∧
      parsePage PageInput.nonNum = 1 :=
  C1_page_clamped (PageInput.num 100) 15 109 (by decide) (by decide)

/-- C10: for `item_count > 0` and `items_per_page > 0`, the last page number
equals the number of pages (`last_page = first_page + page_count - 1` with
`first_page = 1`). -/
theorem C10_last_page_eq_page_count (r : PageInput) (ipp ic : Int)
    (hic : 0 < ic) (hipp : 0 < ipp) :
    (pageInit r ipp ic).last_page = some (pageInit r ipp ic).page_count := by
  unfold pageInit
  rw [if_pos hic]
  unfold pageInitPos
  simp only
  congr 1
  omega

/-- C10 witness: 999 items at 10 per page give `last_page = page_count = 100`. -/
theorem C10_last_page_eq_page_count_witness :
    (pageInit (PageInput.num 5) 10 999).last_page =
      some (pageInit (PageInput.num 5) 10 999).page_count :=
  C10_last_page_eq_page_count (PageInput.num 5) 10 999 (by decide) (by decide)

/-- C2: for `item_count > 0` and `items_per_page > 0` the page count equals
`ceil(item_count / items_per_page)` (also characterised as the unique `pc`
with `(pc - 1) * items_per_page < item_count ≤ pc * items_per_page`) and
`first_page = 1`; for `item_count = 0` the page count is `0` and
`first_page`, `last_page`, `first_item`, `last_item` are all `None`. -/
theorem C2_page_count_and_empty (r : PageInput) (ipp ic : Int) :
    (0 < ic → 0 < ipp →
      (pageInit r ipp ic).page_count = ceilDiv ic ipp ∧
      ((pageInit r ipp ic).page_count - 1) * ipp < ic ∧
      ic ≤ (pageInit r ipp ic).page_count * ipp ∧
      (pageInit r ipp ic).first_page = some 1) ∧
    ((pageInit r ipp 0).page_count = 0 ∧
      (pageInit r ipp 0).first_page = none ∧
      (pageInit r ipp 0).last_page = none ∧
      (pageInit r ipp 0).first_item = none ∧
      (pageInit r ipp 0).last_item = none) := by
  constructor
  · intro hic hipp
    have hchar := pageCount_char ipp ic hipp hic
    have hceil := pageCount_eq_ceilDiv ipp ic hipp
    unfold pageInit
    rw [if_pos hic]
    exact ⟨hceil, hchar.2.1, hchar.2.2, rfl⟩
  · unfold pageInit
    rw [if_neg (by omega)]
    exact ⟨rfl, rfl, rfl, rfl, rfl⟩

/-- C2 witness: 999 items at 10 per page give `page_count = ceilDiv 999 10`
(that is, 100), and the empty collection yields the all-`None` state. -/
theorem C2_page_count_and_empty_witness :
    ((pageInit (PageInput.num 5) 10 999).page_count = ceilDiv 999 10 ∧
      ((pageInit (PageInput.num 5) 10 999).page_count - 1) * 10 < 999 ∧
      999 ≤ (pageInit (PageInput.num 5) 10 999).page_count * 10 ∧
      (pageInit (PageInput.num 5) 10 999).first_page = some 1) ∧
    ((pageInit (PageInput.num 5) 10 0).page_count = 0 ∧
      (pageInit (PageInput.num 5) 10 0).first_page = none ∧
      (pageInit (PageInput.num 5) 10 0).last_page = none ∧
      (pageInit (PageInput.num 5) 10 0).first_item = none ∧
      (pageInit (PageInput.num 5) 10 0).last_item = none) :=
  ⟨(C2_page_count_and_empty (PageInput.num 5) 10 999).1 (by decide) (by decide),
   (C2_page_count_and_empty (PageInput.num 5) 10 999).2⟩

/-- C3: for `item_count > 0` and `items_per_page > 0`:
`first_item = (page - 1) * items_per_page + 1`,
`last_item = min (first_item + items_per_page - 1) item_count`, the number
of items on the page (`last_item - first_item + 1`) is at most
`items_per_page`, with equality whenever the current page is not the last
page. -/
theorem C3_item_range (r : PageInput) (ipp ic : Int) (hic : 0 < ic)
    (hipp : 0 < ipp) :
    ∃ fi li,
      (pageInit r ipp ic).first_item = some fi ∧
      (pageInit r ipp ic).last_item = some li ∧
      fi = ((pageInit r ipp ic).page - 1) * ipp + 1 ∧
      li = min (fi + ipp - 1) ic ∧
      li - fi + 1 ≤ ipp ∧
      ((pageInit r ipp ic).last_page ≠ some (pageInit r ipp ic).page →
        li - fi + 1 = ipp) := by
  have hchar := pageCount_char ipp ic hipp hic
  set pc := (ic - 1).fdiv ipp + 1 with hpc
  set p0 := parsePage r with hp0
  set p : Int := if 1 + pc - 1 < p0 then 1 + pc - 1 else if p0 < 1 then 1 else p0
    with hp
  have hpage : (pageInit r ipp ic).page = p := by
    unfold pageInit; rw [if_pos hic]; rfl
  have hfi : (pageInit r ipp ic).first_item = some ((p - 1) * ipp + 1) := by
    unfold pageInit; rw [if_pos hic]; rfl
  have hli : (pageInit r ipp ic).last_item
      = some (min ((p - 1) * ipp + 1 + ipp - 1) ic) := by
    unfold pageInit; rw [if_pos hic]; rfl
  have hlp : (pageInit r ipp ic).last_page = some (1 + pc - 1) := by
    unfold pageInit; rw [if_pos hic]; rfl
  have hpb : 1 ≤ p ∧ p ≤ pc := by rw [hp]; split_ifs <;> omega
  refine ⟨(p - 1) * ipp + 1, min ((p - 1) * ipp + 1 + ipp - 1) ic,
    hfi, hli, by rw [hpage], rfl, ?_, ?_⟩
  · omega
  · intro hne
    rw [hlp, hpage] at hne
    have hplt : p ≤ pc - 1 := by
      rcases hpb with ⟨h1, h2⟩
      rcases lt_or_eq_of_le h2 with h | h
      · omega
      · exact absurd (by rw [h]; congr 1; omega) hne
    have hmul : p * ipp ≤ (pc - 1) * ipp :=
      mul_le_mul_of_nonneg_right hplt hipp.le
    have he : (p - 1) * ipp + 1 + ipp - 1 = p * ipp := by ring
    have hmin : min ((p - 1) * ipp + 1 + ipp - 1) ic = (p - 1) * ipp + 1 + ipp - 1 := by
      refine min_eq_left ?_
      have := hchar.2.1
      omega
    rw [hmin]
    omega

/-- C3 witness: page 5 of 999 items at 10 per page has
`first_item = 41`, `last_item = 50`, a full page of 10 items. -/
theorem C3_item_range_witness :
    ∃ fi li,
      (pageInit (PageInput.num 5) 10 999).first_item = some fi ∧
      (pageInit (PageInput.num 5) 10 999).last_item = some li ∧
      fi = ((pageInit (PageInput.num 5) 10 999).page - 1) * 10 + 1 ∧
      li = min (fi + 10 - 1) 999 ∧
      li - fi + 1 ≤ 10 ∧
      ((pageInit (PageInput.num 5) 10 999).last_page
          ≠ some (pageInit (PageInput.num 5) 10 999).page →
        li - fi + 1 = 10) :=
  C3_item_range (PageInput.num 5) 10 999 (by decide) (by decide)

/-- Python's `range(a, b + 1)` over integers: the ascending list
`a, a + 1, ..., b` (empty when `b < a`), as iterated by the loop at
line 612 of `Page._range`. -/
def intRange (a b : Int) : List Int :=
  (List.range (b + 1 - a).toNat).map (fun (i : Nat) => a + (i : Int))

/-- Membership in `intRange` is exactly the closed interval `[a, b]`. -/
theorem mem_intRange {a b x : Int} : x ∈ intRange a b ↔ a ≤ x ∧ x ≤ b := by
  unfold intRange
  simp only [List.mem_map, List.mem_range]
  constructor
  · rintro ⟨i, hi, rfl⟩
    omega
  · rintro ⟨hax, hxb⟩
    exact ⟨(x - a).toNat, by omega, by omega⟩

/-- One entry appended to `nav_items` by `Page._range` (lines 595-641): a
link to a page, the current-page marker (not a link), or the `..` gap
marker. The displayed text goes through the tag-serialisation helpers that
the specification leaves out of scope; the execution of the text
computation, including its local-variable behaviour, is modelled separately
by `rangeRun`. -/
inductive NavEntry where
  | page (n : Int)
  | current (n : Int)
  | gap
deriving DecidableEq

/-- The page number an entry points at (`none` for a gap marker). -/
def entryPage : NavEntry → Option Int
  | .page n => some n
  | .current n => some n
  | .gap => none

/-- The sequence of entries that `Page._range` appends to `nav_items`
(lines 592-641), in source order: the leading first-page link (lines
599-600), the left gap (lines 604-610), the window
`range(leftmost_page, rightmost_page + 1)` with the current page marked
(lines 612-624), the right gap (lines 628-634) and the trailing last-page
link (lines 638-639), where `leftmost_page = max(first_page, page - radius)`
and `rightmost_page = min(last_page, page + radius)` (lines 592-593). -/
def pageRange (first_page last_page page radius : Int) : List NavEntry :=
  let leftmost_page := max first_page (page - radius)
  let rightmost_page := min last_page (page + radius)
  (if page ≠ first_page ∧ first_page < leftmost_page
    then [NavEntry.page first_page] else [])
  ++ (if 1 < leftmost_page - first_page then [NavEntry.gap] else [])
  ++ (intRange leftmost_page rightmost_page).map
      (fun n => if n = page then NavEntry.current n else NavEntry.page n)
  ++ (if 1 < last_page - rightmost_page then [NavEntry.gap] else [])
  ++ (if page ≠ last_page ∧ rightmost_page < last_page
    then [NavEntry.page last_page] else [])

/-- Any page number inside the radius window appears in the emitted range. -/
theorem mem_pageRange_of_window {fp lp p radius n : Int}
    (hL : max fp (p - radius) ≤ n) (hR : n ≤ min lp (p + radius)) :
    ∃ e ∈ pageRange fp lp p radius, entryPage e = some n := by
  refine ⟨if n = p then NavEntry.current n else NavEntry.page n, ?_, ?_⟩
  · unfold pageRange
    simp only [List.mem_append, List.mem_map]
    exact Or.inl (Or.inl (Or.inr ⟨n, mem_intRange.mpr ⟨hL, hR⟩, rfl⟩))
  · split_ifs <;> rfl

/-- C4: for any state satisfying the constructor invariant
`first_page ≤ page ≤ last_page` and any radius `≥ 0`, the emitted range
contains an entry whose page number is `first_page` and one whose page
number is `last_page`; the leading first-page link heads the sequence
exactly under the source condition
`page != first_page and first_page < leftmost_page` (lines 599-600), the
trailing last-page link symmetrically (lines 638-639), and when a boundary
link is not emitted the boundary page itself lies inside the window
`[leftmost_page, rightmost_page]`. -/
theorem C4_boundary_reachability (fp lp p radius : Int)
    (h1 : fp ≤ p) (h2 : p ≤ lp) (h3 : 0 ≤ radius) :
    (∃ e ∈ pageRange fp lp p radius, entryPage e = some fp) ∧
    (∃ e ∈ pageRange fp lp p radius, entryPage e = some lp) ∧
    ((p ≠ fp ∧ fp < max fp (p - radius)) →
      (pageRange fp lp p radius).head? = some (NavEntry.page fp)) ∧
    (¬(p ≠ fp ∧ fp < max fp (p - radius)) →
      max fp (p - radius) ≤ fp ∧ fp ≤ min lp (p + radius)) ∧
    ((p ≠ lp ∧ min lp (p + radius) < lp) →
      ∃ t, pageRange fp lp p radius = t ++ [NavEntry.page lp]) ∧
    (¬(p ≠ lp ∧ min lp (p + radius) < lp) →
      max fp (p - radius) ≤ lp ∧ lp ≤ min lp (p + radius)) := by
  refine ⟨?_, ?_, ?_, ?_, ?_, ?_⟩
  · by_cases hc : p ≠ fp ∧ fp < max fp (p - radius)
    · refine ⟨NavEntry.page fp, ?_, rfl⟩
      unfold pageRange
      simp only [List.mem_append]
      exact Or.inl (Or.inl (Or.inl (Or.inl (by rw [if_pos hc]; exact List.mem_singleton.mpr rfl))))
    · exact mem_pageRange_of_window (by omega) (by omega)
  · by_cases hc : p ≠ lp ∧ min lp (p + radius) < lp
    · refine ⟨NavEntry.page lp, ?_, rfl⟩
      unfold pageRange
      simp only [List.mem_append]
      exact Or.inr (by rw [if_pos hc]; exact List.mem_singleton.mpr rfl)
    · exact mem_pageRange_of_window (by omega) (by omega)
  · intro hc
    simp only [pageRange]
    rw [if_pos hc]
    rfl
  · intro hc
    omega
  · intro hc
    simp only [pageRange]
    rw [if_pos hc]
    exact ⟨_, rfl⟩
  · intro hc
    omega

/-- C4 witness: instantiation at `first_page = 1`, `last_page = 12`,
`page = 7`, `radius = 2` (the window `5..9` with both boundary links). -/
theorem C4_boundary_reachability_witness :
    (∃ e ∈ pageRange 1 12 7 2, entryPage e = some 1) ∧
    (∃ e ∈ pageRange 1 12 7 2, entryPage e = some 12) ∧
    (((7:Int) ≠ 1 ∧ (1:Int) < max 1 (7 - 2)) →
      (pageRange 1 12 7 2).head? = some (NavEntry.page 1)) ∧
    (¬((7:Int) ≠ 1 ∧ (1:Int) < max 1 (7 - 2)) →
      max 1 (7 - 2) ≤ (1:Int) ∧ (1:Int) ≤ min 12 (7 + 2)) ∧
    (((7:Int) ≠ 12 ∧ min 12 (7 + 2) < (12:Int)) →
      ∃ t, pageRange 1 12 7 2 = t ++ [NavEntry.page 12]) ∧
    (¬((7:Int) ≠ 12 ∧ min 12 (7 + 2) < (12:Int)) →
      max 1 (7 - 2) ≤ (12:Int) ∧ (12:Int) ≤ min 12 (7 + 2)) :=
  C4_boundary_reachability 1 12 7 2 (by decide) (by decide) (by decide)

/-- C5: the number of gap markers in the emitted range is exactly: one on
the left iff `leftmost_page - first_page > 1` (lines 604-610), plus one on
the right iff `last_page - rightmost_page > 1` (lines 628-634); and when
the distance is exactly 1 no gap appears on that side and the adjacent page
itself is shown directly. -/
theorem C5_gap_iff (fp lp p radius : Int)
    (h1 : fp ≤ p) (h2 : p ≤ lp) (h3 : 0 ≤ radius) :
    ((pageRange fp lp p radius).count NavEntry.gap
      = (if 1 < max fp (p - radius) - fp then 1 else 0)
        + (if 1 < lp - min lp (p + radius) then 1 else 0)) ∧
    (max fp (p - radius) - fp = 1 →
      ∃ e ∈ pageRange fp lp p radius, entryPage e = some (fp + 1)) ∧
    (lp - min lp (p + radius) = 1 →
      ∃ e ∈ pageRange fp lp p radius, entryPage e = some (lp - 1)) := by
  refine ⟨?_, ?_, ?_⟩
  · have hC : ((intRange (max fp (p - radius)) (min lp (p + radius))).map
        (fun n => if n = p then NavEntry.current n else NavEntry.page n)).count
          NavEntry.gap = 0 := by
      rw [List.count_eq_zero]
      intro hmem
      rw [List.mem_map] at hmem
      obtain ⟨n, -, hn⟩ := hmem
      split_ifs at hn <;> simp at hn
    have hpg : ∀ (c : Prop) [inst : Decidable c] (n : Int),
        (if c then [NavEntry.page n] else []).count NavEntry.gap = 0 := by
      intro c inst n
      split_ifs <;> simp
    have hgap : ∀ (c : Prop) [inst : Decidable c],
        (if c then [NavEntry.gap] else []).count NavEntry.gap
          = if c then 1 else 0 := by
      intro c inst
      split_ifs <;> simp
    unfold pageRange
    simp only [List.count_append]
    rw [hC, hpg, hpg, hgap, hgap]
    split_ifs <;> simp
  · intro h
    exact mem_pageRange_of_window (by omega) (by omega)
  · intro h
    exact mem_pageRange_of_window (by omega) (by omega)

/-- C5 witness: instantiation at `first_page = 1`, `last_page = 8`,
`page = 3`, `radius = 1` (window `2..4`: no left gap, the adjacent page 2
shown directly, one right gap). -/
theorem C5_gap_iff_witness :
    ((pageRange 1 8 3 1).count NavEntry.gap
      = (if 1 < max 1 (3 - 1) - 1 then 1 else 0)
        + (if 1 < 8 - min 8 (3 + 1) then 1 else 0)) ∧
    (max 1 (3 - 1) - 1 = (1:Int) →
      ∃ e ∈ pageRange 1 8 3 1, entryPage e = some (1 + 1)) ∧
    ((8:Int) - min 8 (3 + 1) = 1 →
      ∃ e ∈ pageRange 1 8 3 1, entryPage e = some (8 - 1)) :=
  C5_gap_iff 1 8 3 1 (by decide) (by decide) (by decide)

/-- Python exceptions raised by the modelled code paths. -/
inductive PyError where
  | attributeError
  | unboundLocalError
  | typeError
  | nameError
deriving DecidableEq

/-- Model of `Page._pagerlink` (lines 643-686). The method reads `self.url`
(line 670) to build the link target, but `Page.__init__` never assigns that
attribute: the block that would store the constructor's `url` argument
(lines 229-237) is commented out. Reading the missing attribute raises
`AttributeError` whatever `url` argument was passed, so the URL work
(`url_generator`, `HTML.a`) below line 670 is unreachable. -/
def pagerlinkRun (urlArg : Option String) (pageNum : Int) :
    Except PyError String :=
  Except.error PyError.attributeError

/-- Abstraction of `make_html_tag('span', **attrs) + text + '</span>'`
(lines 607, 617, 631): attribute serialisation is out of scope; what
matters here is that the construction wraps the previous value of the
local variable `text`. -/
def spanWrap (t : String) : String := "<span>" ++ t ++ "</span>"

/-- Faithful execution of `Page._range` (lines 586-641), threading the
local variable `text` (`none` = not yet assigned). The source never
initialises `text`, yet the branches that wrap it in a SPAN tag when
`dotdot_attr`/`curpage_attr` are non-empty (lines 607, 617, 631) read it;
if such a branch runs before any assignment, Python raises
`UnboundLocalError`. Every linked entry calls `self._pagerlink` (`link`),
which can itself raise. -/
def rangeRun (link : Int → Except PyError String) (dotdotAttr curAttr : Bool)
    (fp lp p radius : Int) : Except PyError (List String) := do
  let leftmost_page := max fp (p - radius)
  let rightmost_page := min lp (p + radius)
  let mut nav_items : List String := []
  let mut text : Option String := none
  if p ≠ fp ∧ fp < leftmost_page then
    nav_items := nav_items ++ [← link fp]
  if 1 < leftmost_page - fp then
    if dotdotAttr then
      match text with
      | none => throw PyError.unboundLocalError
      | some t =>
        text := some (spanWrap t)
        nav_items := nav_items ++ [spanWrap t]
    else
      text := some ".."
      nav_items := nav_items ++ [".."]
  for n in intRange leftmost_page rightmost_page do
    if n = p then
      if curAttr then
        match text with
        | none => throw PyError.unboundLocalError
        | some t =>
          text := some (spanWrap t)
          nav_items := nav_items ++ [spanWrap t]
      else
        text := some (toString n)
        nav_items := nav_items ++ [toString n]
    else
      text := some (toString n)
      nav_items := nav_items ++ [← link n]
  if 1 < lp - rightmost_page then
    if dotdotAttr then
      match text with
      | none => throw PyError.unboundLocalError
      | some t =>
        text := some (spanWrap t)
        nav_items := nav_items ++ [spanWrap t]
    else
      text := some ".."
      nav_items := nav_items ++ [".."]
  if p ≠ lp ∧ rightmost_page < lp then
    nav_items := nav_items ++ [← link lp]
  return nav_items

/-- C6 counterexample: `_range` for `first_page = 1`, `last_page = 8`,
`page = 1`, `radius = 4` does NOT yield just pages 1..5 followed by a
single trailing gap: the trailing last-page link of lines 638-639 (emitted
because `page != last_page` and `rightmost_page = 5 < 8 = last_page`)
follows the gap, so the claimed sequence is not the emitted one. -/
theorem C6_scenario_counterexample :
    pageRange 1 8 1 4
      ≠ [NavEntry.current 1, NavEntry.page 2, NavEntry.page 3,
         NavEntry.page 4, NavEntry.page 5, NavEntry.gap] := by decide

/-- C6 (amended): for the 109-item, 15-per-page collection at page 1 with
radius 4 (`first_page = 1`, `last_page = 8`), `_range` emits the entries
for pages 1 through 5 with page 1 as the current-page marker, then a
single trailing gap, then a trailing entry linking to the last page 8,
with no leading gap and no leading first-page entry. -/
theorem C6_scenario_radius4 :
    (pageInit (PageInput.num 1) 15 109).first_page = some 1 ∧
    (pageInit (PageInput.num 1) 15 109).last_page = some 8 ∧
    (pageInit (PageInput.num 1) 15 109).page = 1 ∧
    pageRange 1 8 1 4
      = [NavEntry.current 1, NavEntry.page 2, NavEntry.page 3,
         NavEntry.page 4, NavEntry.page 5, NavEntry.gap, NavEntry.page 8] :=
  ⟨rfl, rfl, rfl, by decide⟩

/-- A parsed pager format string: literal text, the `~radius~` range token
that `re.sub` replaces at line 547, or a `$name` placeholder consumed by
`Template(...).safe_substitute` at lines 550-567. -/
inductive FmtToken where
  | lit (s : String)
  | rangeTok (radius : Int)
  | nameTok (name : String)
deriving DecidableEq

/-- Python `str()` of an int-or-`None` attribute as interpolated into the
substitution map of lines 550-567. -/
def pyStr : Option Int → String
  | some n => toString n
  | none => "None"

/-- Model of `Page.pager` (lines 354-569) over a parsed format. The short-circuit of
lines 542-544 returns the empty string when `page_count == 0`, or when
`page_count == 1` and `show_if_single_page` is false, before the range
expansion (line 547) and the template substitution (lines 550-567).
Otherwise each `~radius~` token is replaced by the separator-joined
`_range` output, then the substitution map is built — its four `link_*`
values invoke `_pagerlink` (`link`) eagerly, guarded by
`page > first_page`, `page < last_page`, `previous_page` and `next_page`
respectively (lines 559-566; the symbol texts are out-of-scope display) —
and the placeholders are substituted, `safe_substitute` leaving an
unrecognised `$name` verbatim. The `first_page`/`last_page` pattern match
is only reached with `page_count != 0`, where `__init__` always set both;
the fallback arm is unreachable from constructed states. -/
def pagerRun (link : Int → Except PyError String) (dotdotAttr curAttr : Bool)
    (separator : String) (st : PageRec) (fmt : List FmtToken)
    (show_if_single_page : Bool) : Except PyError String :=
  if st.page_count = 0 ∨ (st.page_count = 1 ∧ show_if_single_page = false) then
    Except.ok ""
  else
    match st.first_page, st.last_page with
    | some fp, some lp => do
      let mut parts : List FmtToken := []
      for t in fmt do
        match t with
        | .rangeTok radius =>
          let items ← rangeRun link dotdotAttr curAttr fp lp st.page radius
          parts := parts ++ [FmtToken.lit (String.intercalate separator items)]
        | other => parts := parts ++ [other]
      let link_first ← if fp < st.page then link fp else pure ""
      let link_last ← if st.page < lp then link lp else pure ""
      let link_previous ← match st.previous_page with
        | some q => link q
        | none => pure ""
      let link_next ← match st.next_page with
        | some q => link q
        | none => pure ""
      let substName : String → String := fun name =>
        if name = "first_page" then pyStr st.first_page
        else if name = "last_page" then pyStr st.last_page
        else if name = "page" then toString st.page
        else if name = "page_count" then toString st.page_count
        else if name = "items_per_page" then toString st.items_per_page
        else if name = "first_item" then pyStr st.first_item
        else if name = "last_item" then pyStr st.last_item
        else if name = "item_count" then toString st.item_count
        else if name = "link_first" then link_first
        else if name = "link_last" then link_last
        else if name = "link_previous" then link_previous
        else if name = "link_next" then link_next
        else "$" ++ name
      return String.join (parts.map (fun t =>
        match t with
        | .lit s => s
        | .rangeTok _ => ""
        | .nameTok name => substName name))
    | _, _ => throw PyError.typeError

/-- C7: for every state, format, separator, attribute flags and link
strategy, `pager` returns the empty string whenever `page_count = 0`, and
whenever `page_count = 1` without `show_if_single_page`; the short-circuit
runs before the range expansion and the template substitution, so the
result is `ok ""` even for a link function that always fails and for any
format whatsoever — no link-generation call is evaluated and the format is
never read. -/
theorem C7_render_short_circuit (link : Int → Except PyError String)
    (dotdotAttr curAttr : Bool) (separator : String) (st : PageRec)
    (fmt : List FmtToken) (sisp : Bool)
    (h : st.page_count = 0 ∨ (st.page_count = 1 ∧ sisp = false)) :
    pagerRun link dotdotAttr curAttr separator st fmt sisp = Except.ok "" := by
  unfold pagerRun
  rw [if_pos h]

/-- C7 witness: the empty collection (`page_count = 0`) and a 10-item
single-page collection (`page_count = 1`, `show_if_single_page` false),
rendered with an always-failing link function and a format containing a
range token, both yield the empty string. -/
theorem C7_render_short_circuit_witness :
    pagerRun (fun _ => Except.error PyError.attributeError) true true " "
      (pageInit (PageInput.num 1) 20 0) [FmtToken.rangeTok 2] false
      = Except.ok "" ∧
    pagerRun (fun _ => Except.error PyError.attributeError) true true " "
      (pageInit (PageInput.num 1) 20 10) [FmtToken.rangeTok 2] false
      = Except.ok "" :=
  ⟨C7_render_short_circuit _ true true " " _ _ false (Or.inl (by decide)),
   C7_render_short_circuit _ true true " " _ _ false (Or.inr ⟨by decide, rfl⟩)⟩

/-- C8 (code bug): `render` does not fail with a dedicated configuration
error when no usable link strategy is supplied — it raises
`AttributeError` whenever any link is generated, even when a URL argument
was supplied to the constructor, because `Page.__init__` never stores it
(the assignment block at lines 229-237 is commented out) and `_pagerlink`
reads the missing `self.url` attribute (line 670). Here: 100 items, 20 per
page, page 2, `url` supplied, default format `'~2~'` — the first linked
entry of the range raises `AttributeError`. -/
theorem C8_no_configuration_error :
    pagerRun (pagerlinkRun (some "http://example.org/foo")) true true " "
      (pageInit (PageInput.num 2) 20 100) [FmtToken.rangeTok 2] false
      = Except.error PyError.attributeError := rfl

/-- The capabilities of the collection object passed to `Page.__init__`,
as duck-typed by the source: whether `len(collection)` works (`__len__`)
and what it returns, and whether `collection[first:last]` produces a slice
(`sliceOk = false` covers both a missing `__getitem__` and one that raises
`TypeError` on slices, like `dict`). -/
structure PyCollection where
  hasLen : Bool
  length : Int
  sliceOk : Bool
deriving DecidableEq

/-- Model of `Page.__init__` with the collection explicit (lines 243-299):
`item_count` is the passed count or `len(self.collection)` (lines 266-269;
on a collection without `__len__`, `len` raises `TypeError`, which
propagates to the caller); when `item_count > 0` the slice
`self.collection[first:last]` is attempted inside
`try: ... except TypeError(e): ...` (lines 293-299) — when the slice
raises `TypeError`, evaluating the malformed handler clause
`except TypeError(e)` reads the undefined name `e`, so a `NameError`
replaces the collection-access error. The capability check `get_wrapper`
(lines 134-148) is never invoked by the constructor (and its message
constant `INCOMPATIBLE_COLLECTION_TYPE` is an undefined name). An
`item_count` of zero skips the slice entirely and raises nothing. -/
def pageInitColl (c : PyCollection) (page : PageInput) (items_per_page : Int)
    (item_count : Option Int) : Except PyError PageRec := do
  let ic ← match item_count with
    | some n => pure n
    | none => if c.hasLen then pure c.length else throw PyError.typeError
  let st := pageInit page items_per_page ic
  if 0 < ic then
    if c.sliceOk then
      return st
    else
      throw PyError.nameError
  else
    return st

/-- C9 (code bug): an empty collection is valid and raises nothing, and a
collection that cannot report a length does fail with a propagating
`TypeError`; but a collection that cannot produce the contiguous slice
does NOT surface a type/capability error — the malformed
`except TypeError(e)` handler (line 297) raises `NameError` instead (the
repository's own tests, `tests/test_paginate.py` lines 340-350, expect
`TypeError` for exactly such collections). Inputs: the empty list; an
object with `__iter__`/`__getitem__` but no `__len__`; an
`UnsliceableSequence` over 10 items. -/
theorem C9_collection_access :
    (pageInitColl { hasLen := true, length := 0, sliceOk := true }
        (PageInput.num 0) 20 none
      = Except.ok (pageInit (PageInput.num 0) 20 0)) ∧
    (pageInitColl { hasLen := false, length := 0, sliceOk := true }
        (PageInput.num 1) 20 none
      = Except.error PyError.typeError) ∧
    (pageInitColl { hasLen := true, length := 10, sliceOk := false }
        (PageInput.num 1) 20 none
      = Except.error PyError.nameError) :=
  ⟨rfl, rfl, rfl⟩
